import Mathlib

/-!
Verification development for the `tap-postgres` Singer tap
(`src/tap_postgres/client.py`).

The Python source is shallowly embedded below.  Pure helpers become Lean
functions; Python `dict`s become association lists with Python's
insertion-order update semantics; fallible lookups (`d[k]`, which may raise
`KeyError`) return `Except`/`Option`; `datetime` values are modelled with
explicit calendar fields and an optional UTC-offset (a `none` offset is a
naive value).  Machine floats never appear in the properties under study, so
JSON numbers are modelled as integers.
-/

namespace TapPostgres

/-! ## Generic helpers (Python string / dict primitives) -/

/-- ASCII lowercase of one character, as Python `str.lower` acts on the ASCII
range (every SQL type name handled by the tap is ASCII). -/
def charToLower (c : Char) : Char :=
  match c with
  | 'A' => 'a' | 'B' => 'b' | 'C' => 'c' | 'D' => 'd' | 'E' => 'e'
  | 'F' => 'f' | 'G' => 'g' | 'H' => 'h' | 'I' => 'i' | 'J' => 'j'
  | 'K' => 'k' | 'L' => 'l' | 'M' => 'm' | 'N' => 'n' | 'O' => 'o'
  | 'P' => 'p' | 'Q' => 'q' | 'R' => 'r' | 'S' => 's' | 'T' => 't'
  | 'U' => 'u' | 'V' => 'v' | 'W' => 'w' | 'X' => 'x' | 'Y' => 'y'
  | 'Z' => 'z'
  | c => c

/-- Python `str.lower()` (ASCII fragment). -/
def strToLower (s : String) : String :=
  String.mk (s.data.map charToLower)

/-- Does `needle` occur as a contiguous run inside `hay`?  (Python's
`needle in hay` on strings, acting on the character lists.) -/
def charsContains (hay needle : List Char) : Bool :=
  needle.isPrefixOf hay ||
    match hay with
    | [] => false
    | _ :: t => charsContains t needle

/-- Python's substring test `needle in hay`. -/
def strContains (hay needle : String) : Bool :=
  charsContains hay.data needle.data

/-- Python `dict` lookup `d.get(k)`: first binding of `k`, if any.  The
association lists below never hold duplicate keys, mirroring `dict`. -/
def dictGet {V : Type} (d : List (String × V)) (k : String) : Option V :=
  match d with
  | [] => none
  | (k', v) :: t => if k' = k then some v else dictGet t k

/-- Python `dict` update `d[k] = v`: replace in place if the key exists
(keeping its position), otherwise append at the end. -/
def dictUpdate {V : Type} (d : List (String × V)) (k : String) (v : V) :
    List (String × V) :=
  match d with
  | [] => [(k, v)]
  | (k', v') :: t =>
      if k' = k then (k, v) :: t else (k', v') :: dictUpdate t k v

/-- Python `k in d` on a dict. -/
def dictHas {V : Type} (d : List (String × V)) (k : String) : Bool :=
  (dictGet d k).isSome

/-- `n` rendered in decimal and left-padded with zeros to width `w`. -/
def padNat (w : Nat) (n : Nat) : String :=
  let s := toString n
  String.mk (List.replicate (w - s.length) '0') ++ s

/-- One hex digit, lowercase. -/
def hexDigit (n : Nat) : Char :=
  (("0123456789abcdef").data.getD n '0')

/-- Python `bytes.hex()`: two lowercase hex digits per byte. -/
def bytesHex (bs : List Nat) : String :=
  String.mk (bs.flatMap fun b => [hexDigit (b / 16 % 16), hexDigit (b % 16)])

/-! ## Dates and datetimes

`Date` is Python `datetime.date`; `DateTime` is `datetime.datetime` with an
optional timezone given as minutes east of UTC (`none` = naive).  Python's
`datetime.datetime` is a *subclass* of `datetime.date`: an
`isinstance(x, datetime.date)` test is `true` for both — this fact is
load-bearing for `patched_conform` below. -/

structure Date where
  year : Nat
  month : Nat
  day : Nat
deriving DecidableEq, Repr

/-- `datetime.date.isoformat()`: `YYYY-MM-DD`. -/
def Date.isoformat (d : Date) : String :=
  padNat 4 d.year ++ "-" ++ padNat 2 d.month ++ "-" ++ padNat 2 d.day

/-- UTC-offset suffix as `datetime.isoformat` prints it (`+HH:MM`/`-HH:MM`),
from an offset in minutes. -/
def tzSuffix (offMinutes : Int) : String :=
  let a := offMinutes.natAbs
  (if offMinutes < 0 then "-" else "+") ++ padNat 2 (a / 60) ++ ":" ++ padNat 2 (a % 60)

structure DateTime where
  date : Date
  hour : Nat
  minute : Nat
  second : Nat
  /-- minutes east of UTC; `none` means a naive value (no `tzinfo`) -/
  tzOffsetMinutes : Option Int
deriving DecidableEq, Repr

/-- `datetime.datetime.isoformat()` (microseconds zero in this model):
`YYYY-MM-DDTHH:MM:SS` plus the offset suffix when timezone-aware. -/
def DateTime.isoformat (dt : DateTime) : String :=
  dt.date.isoformat ++ "T" ++ padNat 2 dt.hour ++ ":" ++ padNat 2 dt.minute ++
    ":" ++ padNat 2 dt.second ++
    (match dt.tzOffsetMinutes with
     | none => ""
     | some off => tzSuffix off)

/-- `singer_sdk.helpers._typing.to_json_compatible` on a datetime: a naive
value is first made UTC-aware (`replace(tzinfo=utc)`), then ISO-formatted. -/
def to_json_compatible (dt : DateTime) : String :=
  (if dt.tzOffsetMinutes = none then { dt with tzOffsetMinutes := some 0 } else dt).isoformat

/-- Gregorian civil date from a count of days since 1970-01-01
(Howard Hinnant's `civil_from_days`, over `Int`). -/
def civilFromDays (z0 : Int) : Date :=
  let z := z0 + 719468
  let era := z.fdiv 146097
  let doe := z - era * 146097
  let yoe := (doe - doe.fdiv 1460 + doe.fdiv 36524 - doe.fdiv 146096).fdiv 365
  let doy := doe - (365 * yoe + yoe.fdiv 4 - yoe.fdiv 100)
  let mp := (5 * doy + 2).fdiv 153
  let d := doy - (153 * mp + 2).fdiv 5 + 1
  let m := mp + (if mp < 10 then 3 else (-9))
  let y := yoe + era * 400 + (if m ≤ 2 then 1 else 0)
  ⟨y.toNat, m.toNat, d.toNat⟩

/-- The UTC epoch plus a duration of `secs` seconds, as a timezone-aware
datetime.  Models `datetime.fromtimestamp(0, utc) + timedelta`. -/
def epochPlus (secs : Int) : DateTime :=
  let days := secs.fdiv 86400
  let rem := (secs - days * 86400).toNat
  { date := civilFromDays days
    hour := rem / 3600
    minute := rem % 3600 / 60
    second := rem % 60
    tzOffsetMinutes := some 0 }

structure TimeOfDay where
  hour : Nat
  minute : Nat
  second : Nat
deriving DecidableEq, Repr

/-- Python `str(datetime.time)`: `HH:MM:SS` (microseconds zero here). -/
def TimeOfDay.pyStr (t : TimeOfDay) : String :=
  padNat 2 t.hour ++ ":" ++ padNat 2 t.minute ++ ":" ++ padNat 2 t.second

/-- `datetime.datetime.utcnow().strftime(r"%Y-%m-%dT%H:%M:%SZ")` applied to an
explicit clock reading (the wall clock is an input of the model). -/
def strftimeYmdHMSZ (now : DateTime) : String :=
  padNat 4 now.date.year ++ "-" ++ padNat 2 now.date.month ++ "-" ++
    padNat 2 now.date.day ++ "T" ++ padNat 2 now.hour ++ ":" ++
    padNat 2 now.minute ++ ":" ++ padNat 2 now.second ++ "Z"

/-! ## JSON values -/

/-- JSON values, as produced by `json.loads` (numbers restricted to integers:
no property under study involves fractional payloads). -/
inductive JVal where
  | null
  | bool (b : Bool)
  | num (n : Int)
  | str (s : String)
  | arr (xs : List JVal)
  | obj (fields : List (String × JVal))

/-- Python `x is True` on a JSON-ish value. -/
def JVal.isTrue : JVal → Bool
  | .bool true => true
  | _ => false

/-! ## Property schemas and `is_boolean_type` -/

/-- The `"type"` value of a JSON-schema property: a scalar type name or a
list of them. -/
inductive TypeSpec where
  | single (t : String)
  | list (ts : List String)
deriving DecidableEq, Repr

/-- A property schema as seen by the conformance helper: its optional
`"type"` entry.  (Every schema this tap produces uses `"type"`, never
`"anyOf"`, so the `anyOf` arm of the library helper is vacuous here.) -/
structure PropSchema where
  type : Option TypeSpec
deriving DecidableEq, Repr

/-- `singer_sdk.helpers._typing.is_boolean_type`: true when the schema's type
*contains* a boolean anywhere — `"boolean" in property_type` is a substring
test when the type is a scalar string and a membership test when it is a
list.  A schema with no `"type"` yields Python `None`, which is falsy at the
single use site (`if is_boolean_type(...)`), modelled as `false`. -/
def is_boolean_type (ps : PropSchema) : Bool :=
  match ps.type with
  | none => false
  | some (.single t) => strContains t "boolean"
  | some (.list ts) => ts.contains "boolean"

/-! ## `patched_conform` -/

/-- A runtime value reaching the conformance helper. -/
inductive Elem where
  | date (d : Date)
  | datetime (dt : DateTime)
  | timedelta (totalSeconds : Int)
  | time (t : TimeOfDay)
  | bytes (bs : List Nat)
  | str (s : String)
  | int (n : Int)
  | bool (b : Bool)
  | none_
deriving DecidableEq, Repr

/-- `patched_conform` from `client.py`.

The source is a chain of `isinstance` tests.  Its first test,
`isinstance(elem, datetime.date)`, is satisfied by *both* `date` and
`datetime` values, because `datetime.datetime` subclasses `datetime.date` in
Python; hence a `datetime` value takes the first branch and is rendered with
`elem.isoformat()`, and the second test
(`isinstance(elem, (datetime.datetime,))`, which would call
`to_json_compatible`) is unreachable.  The `bytes` branch coerces to a
boolean exactly when `is_boolean_type(property_schema)` holds, else renders
lowercase hex. -/
def patched_conform (elem : Elem) (property_schema : PropSchema) : Elem :=
  match elem with
  | .date d => .str d.isoformat
  | .datetime dt => .str dt.isoformat
  | .timedelta secs => .str (epochPlus secs).isoformat
  | .time t => .str t.pyStr
  | .bytes bs =>
      if is_boolean_type property_schema then .bool (bs ≠ [0] : Bool)
      else .str (bytesHex bs)
  | e => e

/-- The JSON-union fragment `{"type":["string","number","integer","array",
"object","boolean"]}` used for `json`/`jsonb` columns. -/
def jsonUnionTypes : List String :=
  ["string", "number", "integer", "array", "object", "boolean"]

def jsonUnionSchema : PropSchema := ⟨some (.list jsonUnionTypes)⟩

def boolOnlySchema : PropSchema := ⟨some (.single "boolean")⟩

def boolIntSchema : PropSchema := ⟨some (.list ["boolean", "integer"])⟩

/-! ## Type mapper (`sdk_typing_object` / `to_jsonschema_type`)

`singer_sdk.typing` helper objects are mirrored by `SingerType`; each value
stands for the `type_dict` of the corresponding `th.*Type()`. -/

inductive SingerType where
  | dateTimeT
  | numberT
  | integerT
  | dateT
  | stringT
  | booleanT
  | customT (typeList : List String)
  | arrayT (item : SingerType)
deriving DecidableEq, Repr

/-- The connector's config mapping (`self.config`). -/
abbrev Config := List (String × JVal)

/-- Python exceptions surfaced by the embedded code. -/
inductive PyErr where
  | keyError (k : String)
  | typeError
  | valueError
  | runtimeError (payload : JVal)

/-- The ordered `sqltype_lookup` mapping of `sdk_typing_object`, in source
order; earlier entries take precedence. -/
def sqltype_lookup : List (String × SingerType) :=
  [ ("jsonb", .customT jsonUnionTypes)
  , ("json", .customT jsonUnionTypes)
  , ("timestamp", .dateTimeT)
  , ("datetime", .dateTimeT)
  , ("date", .dateT)
  , ("int", .integerT)
  , ("numeric", .numberT)
  , ("decimal", .numberT)
  , ("double", .numberT)
  , ("float", .numberT)
  , ("real", .numberT)
  , ("float4", .numberT)
  , ("string", .stringT)
  , ("text", .stringT)
  , ("char", .stringT)
  , ("bool", .booleanT)
  , ("variant", .stringT) ]

/-- `PostgresConnector.sdk_typing_object`, on a type-name string (a
`TypeEngine` input reduces to its class name before the scan, so the string
path carries all the logic).  Reads `self.config["dates_as_string"]` —
a missing key raises `KeyError`.  When that flag `is True`, the `date` and
`datetime` entries are overwritten in place (Python dict update keeps their
position).  The scan returns the first value whose key occurs inside the
lowercased type name; the fallback is `sqltype_lookup["string"]`. -/
def sdk_typing_object (config : Config) (from_type : String) :
    Except PyErr SingerType :=
  match dictGet config "dates_as_string" with
  | none => .error (.keyError "dates_as_string")
  | some das =>
      let lookup :=
        if das.isTrue then
          sqltype_lookup.map fun kv =>
            if kv.1 = "date" ∨ kv.1 = "datetime" then (kv.1, SingerType.stringT)
            else kv
        else sqltype_lookup
      match lookup.find? (fun kv => strContains (strToLower from_type) (strToLower kv.1)) with
      | some kv => .ok kv.2
      | none => .ok ((dictGet lookup "string").getD .stringT)

/-- Input of `to_jsonschema_type`: a plain type name, or a
`sqlalchemy.dialects.postgresql.ARRAY` with the given item-type name. -/
inductive SqlTypeInput where
  | name (s : String)
  | arrayOf (itemName : String)

/-- `PostgresConnector.to_jsonschema_type`: an `ARRAY` descriptor recurses on
its item type and wraps in `th.ArrayType`; everything else goes through
`sdk_typing_object`. -/
def to_jsonschema_type (config : Config) (sql_type : SqlTypeInput) :
    Except PyErr SingerType :=
  match sql_type with
  | .arrayOf item =>
      match sdk_typing_object config item with
      | .ok inner => .ok (.arrayT inner)
      | .error e => .error e
  | .name s => sdk_typing_object config s

/-- `PostgresConnector.__init__`: with a non-null config it evaluates
`config["dates_as_string"] is True` (so a missing key raises `KeyError`
before anything else happens); the returned flag records whether the
string-date OID casters were registered. -/
def pgConnectorInit (config : Option Config) : Except PyErr Bool :=
  match config with
  | none => .ok false
  | some c =>
      match dictGet c "dates_as_string" with
      | none => .error (.keyError "dates_as_string")
      | some v => .ok v.isTrue

/-! ## Catalog discovery: key properties -/

/-- One reflected index from `Inspector.get_indexes`.  An entry of
`column_names` is `none` when that index member is an expression (the
expression itself is reported elsewhere). -/
structure IndexDef where
  unique : Bool
  column_names : List (Option String)
deriving DecidableEq, Repr

/-- The `possible_primary_keys` list of
`PostgresConnector.discover_catalog_entry`: the declared primary-key column
list when the reflected constraint is truthy and carries
`constrained_columns` (modelled by `pk_constrained = some _`), followed by
the column list of every unique index — with no filtering of `none`
entries. -/
def possible_primary_keys (pk_constrained : Option (List (Option String)))
    (indexes : List IndexDef) : List (List (Option String)) :=
  (match pk_constrained with
   | some cols => [cols]
   | none => []) ++
    ((indexes.filter (·.unique)).map (·.column_names))

/-- `key_properties = next(iter(possible_primary_keys), None)`. -/
def key_properties (pk_constrained : Option (List (Option String)))
    (indexes : List IndexDef) : Option (List (Option String)) :=
  (possible_primary_keys pk_constrained indexes).head?

/-- The key choice as the spec's words describe it — identical to
`key_properties` except that unique indexes whose column entries contain a
null (expression members) are *skipped*.  Stated only to be compared with
the source's `key_properties`. -/
def key_properties_claimed (pk_constrained : Option (List (Option String)))
    (indexes : List IndexDef) : Option (List (Option String)) :=
  ((match pk_constrained with
    | some cols => [cols]
    | none => []) ++
    ((indexes.filter (fun i => i.unique && !(i.column_names.contains none))).map
      (·.column_names))).head?

/-! ## Query stream (`PostgresStream.get_records`)

A row is represented by the value its replication-key column holds
(`none` = SQL `NULL`); nothing else about a row bears on the claims. -/

/-- The ordering `sa.nulls_first(replication_key_col.asc())` induces:
`NULL` rows first, then ascending key values. -/
def keyLe : Option Int → Option Int → Bool
  | none, _ => true
  | some _, none => false
  | some x, some y => x ≤ y

/-- SQL `k >= v` under three-valued logic: a `NULL` key never satisfies the
comparison. -/
def sqlGe (k : Option Int) (v : Int) : Bool :=
  match k with
  | none => false
  | some x => v ≤ x

/-- The parts of the built `SELECT` that the claims touch. -/
structure SelectQuery where
  whereGe : Option Int
  orderByKey : Bool
  limit : Option Nat
deriving DecidableEq, Repr

/-- SQLAlchemy `Select.limit(n)`: *replaces* any previously applied limit. -/
def SelectQuery.setLimit (q : SelectQuery) (n : Nat) : SelectQuery :=
  { q with limit := some n }

/-- The stream attributes `get_records` consults. -/
structure QueryStreamCfg where
  /-- whether `self.replication_key` is set -/
  replication_key : Bool
  /-- `self.get_starting_replication_key_value(context)` -/
  start_val : Option Int
  /-- `self.ABORT_AT_RECORD_COUNT` (used under an `is not None` test) -/
  abort_at_record_count : Option Nat
  /-- `self.config.get("max_record_count")` (used under a truthiness test) -/
  max_record_count : Option Nat
deriving Repr

/-- Python truthiness of an optional integer: `None` and `0` are falsy. -/
def pyTruthyInt : Option Int → Bool
  | none => false
  | some v => v ≠ 0

/-- Query construction in `PostgresStream.get_records`: optional
`NULLS FIRST` ascending order and `>=` bound when a replication key is set
(the bound only under `if start_val:` — Python truthiness), then the
abort-threshold limit under `is not None`, then the `max_record_count` limit
under truthiness.  `supports_nulls_first = True` on this stream, so the
ordered branch always uses nulls-first. -/
def build_query (cfg : QueryStreamCfg) : SelectQuery :=
  let q : SelectQuery := { whereGe := none, orderByKey := false, limit := none }
  let q :=
    if cfg.replication_key then
      let q := { q with orderByKey := true }
      if pyTruthyInt cfg.start_val then { q with whereGe := cfg.start_val } else q
    else q
  let q :=
    match cfg.abort_at_record_count with
    | some a => q.setLimit (a + 1)
    | none => q
  match cfg.max_record_count with
  | none => q
  | some m => if m = 0 then q else q.setLimit m

/-- Executing the built query over the table's rows: `WHERE`, then
`ORDER BY`, then `LIMIT`.  (`post_process` is the SDK's identity default.) -/
def run_query (q : SelectQuery) (rows : List (Option Int)) : List (Option Int) :=
  let filtered :=
    match q.whereGe with
    | some v => rows.filter (fun r => sqlGe r v)
    | none => rows
  let ordered :=
    if q.orderByKey then List.insertionSort (fun a b => keyLe a b = true) filtered
    else filtered
  match q.limit with
  | some n => ordered.take n
  | none => ordered

/-- `PostgresStream.get_records` over a table, as the rows it yields. -/
def get_records (cfg : QueryStreamCfg) (rows : List (Option Int)) :
    List (Option Int) :=
  run_query (build_query cfg) rows

/-! ## Log-based schema (`PostgresLogBasedStream.schema`) -/

/-- The catalog entry's schema dict: per-property `"type"` values plus the
optional schema-level `"required"` list.  (Other property keys are carried
through untouched by the function under study and are omitted.) -/
structure SchemaDict where
  properties : List (String × TypeSpec)
  required : Option (List String)
deriving DecidableEq, Repr

/-- The loop body of `PostgresLogBasedStream.schema`: append `"null"` to a
property's type list, promoting a scalar type to a two-element list. -/
def appendNull : TypeSpec → TypeSpec
  | .list ts => .list (ts ++ ["null"])
  | .single s => .list [s, "null"]

/-- Does a property's type admit nulls, i.e. is it a list containing
`"null"`? -/
def typeHasNull : TypeSpec → Bool
  | .list ts => ts.contains "null"
  | .single _ => false

/-- `PostgresLogBasedStream.schema`: append `"null"` to every property's
type (promoting a scalar type to a list), pop `"required"` when present,
then add `_sdc_deleted_at : {"type": ["string"]}` and
`_sdc_lsn : {"type": ["integer"]}`. -/
def logBasedSchema (entry : SchemaDict) : SchemaDict :=
  let props := entry.properties.map fun nt => (nt.1, appendNull nt.2)
  let props := dictUpdate props "_sdc_deleted_at" (.list ["string"])
  let props := dictUpdate props "_sdc_lsn" (.list ["integer"])
  { properties := props, required := none }

/-! ## WAL consumption (`PostgresLogBasedStream.consume`) -/

/-- A replication message.  `payload` is the outcome of
`json.loads(message.payload)`: `none` models a payload that raises
`JSONDecodeError`.  `data_start` is the WAL start offset (LSN). -/
structure WalMessage where
  payload : Option JVal
  data_start : Nat

/-- Python subscript `j[k]` on a parsed JSON value: `KeyError` when the key
is missing, `TypeError` when `j` is not an object. -/
def JVal.index (j : JVal) (k : String) : Except PyErr JVal :=
  match j with
  | .obj fs =>
      match dictGet fs k with
      | some v => .ok v
      | none => .error (.keyError k)
  | _ => .error .typeError

/-- Python `v in {s₁, …}` for a set of strings: only equal strings are
members; any non-string JSON value fails every membership test. -/
def JVal.isStrIn (v : JVal) (ss : List String) : Bool :=
  match v with
  | .str s => ss.contains s
  | _ => false

/-- The loop `for column in payload[…]: row.update({column["name"]:
column["value"]})` over an already-materialised list of entries. -/
def foldColumnList (row : List (String × JVal)) :
    List JVal → Except PyErr (List (String × JVal))
  | [] => .ok row
  | c :: rest =>
      match c.index "name", c.index "value" with
      | .ok (.str n), .ok v => foldColumnList (dictUpdate row n v) rest
      | .ok _, .ok _ => .error .typeError
      | .error e, _ => .error e
      | _, .error e => .error e

/-- Iterating the `columns`/`identity` value: it must be a JSON array
(iterating anything else raises `TypeError`). -/
def foldColumns (row : List (String × JVal)) (cols : JVal) :
    Except PyErr (List (String × JVal)) :=
  match cols with
  | .arr cs => foldColumnList row cs
  | _ => .error .typeError

/-- `PostgresLogBasedStream.consume`.  The wall clock
(`datetime.utcnow()`) is an explicit input.  A `JSONDecodeError` logs a
warning and returns the empty dict; actions `I`/`U` copy `columns` and stamp
`_sdc_deleted_at = None`, `_sdc_lsn = data_start`; `D` copies `identity` and
stamps the formatted current time; `T`, `B`, `C` only log, returning the
(still empty) row; any other action raises `RuntimeError` carrying the
payload. -/
def consume (message : WalMessage) (nowUtc : DateTime) :
    Except PyErr (List (String × JVal)) :=
  match message.payload with
  | none => .ok []
  | some message_payload =>
      let row : List (String × JVal) := []
      match message_payload.index "action" with
      | .error e => .error e
      | .ok action =>
          if action.isStrIn ["I", "U"] then
            match message_payload.index "columns" with
            | .error e => .error e
            | .ok cols =>
                match foldColumns row cols with
                | .error e => .error e
                | .ok row =>
                    let row := dictUpdate row "_sdc_deleted_at" .null
                    let row := dictUpdate row "_sdc_lsn" (.num message.data_start)
                    .ok row
          else if action.isStrIn ["D"] then
            match message_payload.index "identity" with
            | .error e => .error e
            | .ok cols =>
                match foldColumns row cols with
                | .error e => .error e
                | .ok row =>
                    let row := dictUpdate row "_sdc_deleted_at"
                      (.str (strftimeYmdHMSZ nowUtc))
                    let row := dictUpdate row "_sdc_lsn" (.num message.data_start)
                    .ok row
          else if action.isStrIn ["T"] then .ok row
          else if action.isStrIn ["B", "C"] then .ok row
          else .error (.runtimeError message_payload)

/-- The caller's emission test (`row = self.consume(message); if row:`):
only a successfully returned non-empty dict is yielded. -/
def rowEmitted : Except PyErr (List (String × JVal)) → Bool
  | .ok r => !r.isEmpty
  | .error _ => false

/-- A `wal2json` column entry `{"name": …, "value": …}` built from a
name/value pair. -/
def colObj (p : String × JVal) : JVal :=
  .obj [("name", .str p.1), ("value", p.2)]

/-- A config with `dates_as_string` set to `false`. -/
def dasFalseConfig : Config := [("dates_as_string", .bool false)]

/-! ## Dictionary lemmas -/

theorem dictGet_update_self {V : Type} (d : List (String × V)) (k : String) (v : V) :
    dictGet (dictUpdate d k v) k = some v := by
  induction d with
  | nil => simp [dictUpdate, dictGet]
  | cons p t ih =>
      by_cases h : p.1 = k
      · simp [dictUpdate, dictGet, h]
      · simp only [dictUpdate]
        rw [if_neg (by simpa using h)]
        simpa [dictGet, h] using ih

theorem dictGet_update_other {V : Type} (d : List (String × V)) (k k' : String)
    (v : V) (h : k' ≠ k) : dictGet (dictUpdate d k v) k' = dictGet d k' := by
  have hk : ¬ k = k' := fun he => h he.symm
  induction d with
  | nil => simp [dictUpdate, dictGet, hk]
  | cons p t ih =>
      by_cases hp : p.1 = k
      · subst hp
        simp [dictUpdate, dictGet, hk]
      · simp only [dictUpdate]
        rw [if_neg hp]
        by_cases hpk : p.1 = k'
        · simp [dictGet, hpk]
        · simp [dictGet, hpk, ih]

theorem dictHas_append {V : Type} (a b : List (String × V)) (k : String) :
    dictHas (a ++ b) k = (dictHas a k || dictHas b k) := by
  induction a with
  | nil => simp [dictHas, dictGet]
  | cons p t ih =>
      by_cases h : p.1 = k
      · simp [dictHas, dictGet, h]
      · simpa [dictHas, dictGet, h] using ih

theorem dictHas_eq_false_of_not_mem {V : Type} (d : List (String × V)) (k : String)
    (h : k ∉ d.map Prod.fst) : dictHas d k = false := by
  induction d with
  | nil => simp [dictHas, dictGet]
  | cons p t ih =>
      simp only [List.map_cons, List.mem_cons] at h
      push_neg at h
      have h1 : ¬ p.1 = k := fun he => h.1 he.symm
      have h2 := ih h.2
      simp only [dictHas, dictGet] at h2 ⊢
      rw [if_neg h1]
      exact h2

theorem dictUpdate_of_not_has {V : Type} (d : List (String × V)) (k : String) (v : V)
    (h : dictHas d k = false) : dictUpdate d k v = d ++ [(k, v)] := by
  induction d with
  | nil => simp [dictUpdate]
  | cons p t ih =>
      simp only [dictHas, dictGet] at h
      by_cases hp : p.1 = k
      · simp [hp] at h
      · rw [if_neg hp] at h
        simp only [dictUpdate]
        rw [if_neg hp, ih h]
        simp

theorem mem_dictUpdate_of_mem {V : Type} (d : List (String × V)) (k n : String)
    (v w : V) (hmem : (n, w) ∈ d) (hne : n ≠ k) : (n, w) ∈ dictUpdate d k v := by
  induction d with
  | nil => simp at hmem
  | cons p t ih =>
      rcases List.mem_cons.mp hmem with h | h
      · subst h
        simp only [dictUpdate]
        rw [if_neg (by simpa using hne)]
        simp
      · by_cases hp : p.1 = k
        · simp [dictUpdate, hp, List.mem_cons, h]
        · simp only [dictUpdate]
          rw [if_neg hp]
          exact List.mem_cons_of_mem _ (ih h)

/-! ## Claim C1 -/

/-- C1 fails on the code: for the JSON-union fragment (the `jsonb` schema),
`conform(b"\x00", schema)` is `False`, not `"00"`, because the copied bytes
branch tests `is_boolean_type`, which is satisfied by any schema whose type
list *contains* `"boolean"`. -/
theorem c1_counterexample :
    patched_conform (.bytes [0]) jsonUnionSchema = .bool false ∧
    patched_conform (.bytes [0]) jsonUnionSchema ≠ .str "00" ∧
    patched_conform (.bytes [0]) boolIntSchema = .bool false := by
  decide

/-- C1 (amended): the boolean byte-coercion triggers whenever the schema's
type mentions `"boolean"` anywhere — so exactly-boolean schemas coerce
(`false` iff the bytes are the single zero byte), but so do the union
`["boolean","integer"]` and the JSON-union fragment; only schemas whose type
list does not mention boolean get the lowercase hex rendering. -/
theorem c1_bytes_conformance (bs : List Nat) :
    (patched_conform (.bytes bs) boolOnlySchema = .bool false ↔ bs = [0]) ∧
    patched_conform (.bytes bs) boolOnlySchema = .bool (bs ≠ [0] : Bool) ∧
    patched_conform (.bytes bs) boolIntSchema = .bool (bs ≠ [0] : Bool) ∧
    patched_conform (.bytes bs) jsonUnionSchema = .bool (bs ≠ [0] : Bool) ∧
    (∀ ts : List String, "boolean" ∉ ts →
      patched_conform (.bytes bs) ⟨some (.list ts)⟩ = .str (bytesHex bs)) := by
  refine ⟨?_, ?_, ?_, ?_, ?_⟩
  · by_cases h : bs = [0] <;>
      simp [patched_conform, is_boolean_type, boolOnlySchema, strContains,
        charsContains, h]
  · rfl
  · rfl
  · rfl
  · intro ts hts
    simp [patched_conform, is_boolean_type, hts]

/-- Witness for `c1_bytes_conformance` at `bs = [0]`, `ts = ["string"]`. -/
theorem c1_bytes_conformance_witness :
    patched_conform (.bytes [0]) ⟨some (.list ["string"])⟩ = .str (bytesHex [0]) :=
  (c1_bytes_conformance [0]).2.2.2.2 ["string"] (by decide)

/-! ## Claim C2 -/

/-- C2 is right about the intent but the code slips: Python's
`datetime.datetime` subclasses `datetime.date`, so the first branch of
`patched_conform` (`isinstance(elem, datetime.date)`) also captures
datetimes, rendering a naive datetime with plain `isoformat()` and never
reaching the copied `to_json_compatible` branch that would have assumed
UTC.  A pure date is still rendered as a date string without a time
component. -/
theorem c2_naive_datetime_divergence :
    patched_conform (.date ⟨2024, 1, 2⟩) jsonUnionSchema = .str "2024-01-02" ∧
    strContains "2024-01-02" "T" = false ∧
    patched_conform (.datetime ⟨⟨2024, 1, 1⟩, 12, 0, 0, none⟩) jsonUnionSchema =
      .str "2024-01-01T12:00:00" ∧
    to_json_compatible ⟨⟨2024, 1, 1⟩, 12, 0, 0, none⟩ = "2024-01-01T12:00:00+00:00" ∧
    patched_conform (.datetime ⟨⟨2024, 1, 1⟩, 12, 0, 0, none⟩) jsonUnionSchema ≠
      .str (to_json_compatible ⟨⟨2024, 1, 1⟩, 12, 0, 0, none⟩) := by
  decide

/-! ## Claim C3 -/

/-- C3 fails on the code for `"_int4"`: the ordered scan hits the `"int"`
substring first, so the type name `"_int4"` maps to `{type: integer}`, not
to an array-of-integer fragment (the array wrapping only happens for a
structured `ARRAY` descriptor, never for a name string). -/
theorem c3_counterexample :
    to_jsonschema_type dasFalseConfig (.name "_int4") = .ok .integerT ∧
    SingerType.integerT ≠ SingerType.arrayT .integerT := by
  exact ⟨rfl, by decide⟩

/-- C3 (amended): with `dates_as_string` false the mapper sends `"JSONB"`
and `"JSON"` to the JSON-union fragment, `"INTEGER"` to integer,
`"DOUBLE PRECISION"` and `"NUMERIC(10,2)"` to number, and `"_int4"` to
integer (not array-of-integer); an actual `ARRAY(INTEGER)` descriptor is
what yields array-of-integer. -/
theorem c3_type_mapper_outputs :
    to_jsonschema_type dasFalseConfig (.name "JSONB") = .ok (.customT jsonUnionTypes) ∧
    to_jsonschema_type dasFalseConfig (.name "JSON") = .ok (.customT jsonUnionTypes) ∧
    to_jsonschema_type dasFalseConfig (.name "INTEGER") = .ok .integerT ∧
    to_jsonschema_type dasFalseConfig (.name "DOUBLE PRECISION") = .ok .numberT ∧
    to_jsonschema_type dasFalseConfig (.name "_int4") = .ok .integerT ∧
    to_jsonschema_type dasFalseConfig (.name "NUMERIC(10,2)") = .ok .numberT ∧
    to_jsonschema_type dasFalseConfig (.arrayOf "INTEGER") = .ok (.arrayT .integerT) :=
  ⟨rfl, rfl, rfl, rfl, rfl, rfl, rfl⟩

/-! ## Claim C4 -/

/-- C4 fails on the code: a unique expression-only index (column entries
null) is *not* skipped — its column list, nulls included, is appended and
can be chosen as `key_properties`. -/
theorem c4_counterexample :
    key_properties none [⟨true, [none]⟩] = some [none] ∧
    key_properties_claimed none [⟨true, [none]⟩] = none ∧
    key_properties none [⟨true, [none]⟩] ≠ key_properties_claimed none [⟨true, [none]⟩] := by
  decide

/-- C4 (amended): `key_properties` is the head of the list formed by the
declared primary-key column list (when present) followed by *every* unique
index's column list, with no skipping of null (expression) entries; it is
`none` exactly when that list is empty. -/
theorem c4_key_properties (pk : Option (List (Option String)))
    (idxs : List IndexDef) :
    (∀ cols, pk = some cols → key_properties pk idxs = some cols) ∧
    (pk = none →
      key_properties pk idxs = ((idxs.filter (·.unique)).map (·.column_names)).head?) ∧
    (pk = none → (∀ i ∈ idxs, i.unique = false) → key_properties pk idxs = none) := by
  refine ⟨?_, ?_, ?_⟩
  · rintro cols rfl
    simp [key_properties, possible_primary_keys]
  · rintro rfl
    simp [key_properties, possible_primary_keys]
  · rintro rfl h
    have hf : idxs.filter (·.unique) = [] := by
      rw [List.filter_eq_nil_iff]
      intro a ha
      simp [h a ha]
    simp [key_properties, possible_primary_keys, hf]

/-- Witness for `c4_key_properties`: a declared primary key wins over a
unique index. -/
theorem c4_key_properties_witness :
    key_properties (some [some "id"]) [⟨true, [some "u"]⟩] = some [some "id"] :=
  (c4_key_properties (some [some "id"]) [⟨true, [some "u"]⟩]).1 [some "id"] rfl

/-! ## Claim C5 -/

theorem run_query_length_le (q : SelectQuery) (rows : List (Option Int)) (n : Nat)
    (h : q.limit = some n) : (run_query q rows).length ≤ n := by
  unfold run_query
  rw [h]
  exact List.length_take_le _ _

theorem build_query_limit (rk : Bool) (sv : Option Int) (ab : Option Nat)
    (mrc : Option Nat) :
    (build_query ⟨rk, sv, ab, mrc⟩).limit =
      match mrc, ab with
      | some m, some a => if m = 0 then some (a + 1) else some m
      | some m, none => if m = 0 then none else some m
      | none, some a => some (a + 1)
      | none, none => none := by
  cases rk <;> cases ab <;> cases mrc <;>
    by_cases hsv : pyTruthyInt sv = true <;>
      simp [build_query, SelectQuery.setLimit, hsv, apply_ite (SelectQuery.limit)]

/-- C5 fails on the code: with `ABORT_AT_RECORD_COUNT = 1` and
`max_record_count = 5`, five rows are yielded — SQLAlchemy's second
`.limit()` call replaces the first, so the smaller bound does *not* win. -/
theorem c5_counterexample :
    (get_records ⟨false, none, some 1, some 5⟩
        [some 1, some 2, some 3, some 4, some 5]).length = 5 ∧
    ¬ ((get_records ⟨false, none, some 1, some 5⟩
        [some 1, some 2, some 3, some 4, some 5]).length ≤ min (1 + 1) 5) := by
  decide

/-- C5 (amended): each `.limit()` call replaces the previous one, so when a
truthy `max_record_count` is configured it alone bounds the row count (even
if larger than the abort threshold), and the abort-threshold bound
`threshold + 1` governs only when `max_record_count` is absent or falsy. -/
theorem c5_record_limits (cfg : QueryStreamCfg) (rows : List (Option Int)) :
    (∀ m, cfg.max_record_count = some m → m ≠ 0 →
      (build_query cfg).limit = some m ∧ (get_records cfg rows).length ≤ m) ∧
    (∀ a, cfg.abort_at_record_count = some a →
      (cfg.max_record_count = none ∨ cfg.max_record_count = some 0) →
      (build_query cfg).limit = some (a + 1) ∧
        (get_records cfg rows).length ≤ a + 1) := by
  obtain ⟨rk, sv, ab, mrc⟩ := cfg
  constructor
  · rintro m rfl hm
    have hl : (build_query ⟨rk, sv, ab, some m⟩).limit = some m := by
      cases ab <;> simp [build_query_limit, hm]
    exact ⟨hl, run_query_length_le _ _ _ hl⟩
  · rintro a rfl hmrc
    have hl : (build_query ⟨rk, sv, some a, mrc⟩).limit = some (a + 1) := by
      rcases hmrc with rfl | rfl <;> simp [build_query_limit]
    exact ⟨hl, run_query_length_le _ _ _ hl⟩

/-- Witness for `c5_record_limits`: `max_record_count = 3` bounds the
output at three rows. -/
theorem c5_record_limits_witness :
    (build_query ⟨false, none, some 1, some 3⟩).limit = some 3 ∧
    (get_records ⟨false, none, some 1, some 3⟩
        [some 1, some 2, some 3, some 4, some 5]).length ≤ 3 :=
  (c5_record_limits ⟨false, none, some 1, some 3⟩
    [some 1, some 2, some 3, some 4, some 5]).1 3 rfl (by decide)

/-! ## Claim C6 -/

instance keyLeIsTotal : IsTotal (Option Int) (fun a b => keyLe a b = true) where
  total a b := by
    cases a <;> cases b <;> simp [keyLe]
    exact le_total _ _

instance keyLeIsTrans : IsTrans (Option Int) (fun a b => keyLe a b = true) where
  trans a b c hab hbc := by
    cases a <;> cases b <;> cases c <;> simp_all [keyLe]
    omega

theorem build_query_orderBy (sv : Option Int) (ab mrc : Option Nat) :
    (build_query ⟨true, sv, ab, mrc⟩).orderByKey = true := by
  by_cases hsv : pyTruthyInt sv = true <;>
    cases ab <;> cases mrc <;>
      simp [build_query, SelectQuery.setLimit, hsv,
        apply_ite (SelectQuery.orderByKey)]

theorem build_query_whereGe (sv : Option Int) (ab mrc : Option Nat) :
    (build_query ⟨true, sv, ab, mrc⟩).whereGe =
      if pyTruthyInt sv = true then sv else none := by
  by_cases hsv : pyTruthyInt sv = true <;>
    cases ab <;> cases mrc <;>
      simp [build_query, SelectQuery.setLimit, hsv,
        apply_ite (SelectQuery.whereGe)]

theorem mem_run_query (q : SelectQuery) (rows : List (Option Int))
    (r : Option Int) (hr : r ∈ run_query q rows) (v : Int)
    (hq : q.whereGe = some v) : sqlGe r v = true := by
  obtain ⟨w, o, l⟩ := q
  cases hq
  have hmem : r ∈ rows.filter fun r => sqlGe r v := by
    cases o <;> cases l <;> simp only [run_query] at hr
    · exact hr
    · exact List.mem_of_mem_take hr
    · exact ((List.perm_insertionSort _ _).mem_iff).mp hr
    · exact ((List.perm_insertionSort _ _).mem_iff).mp (List.mem_of_mem_take hr)
  exact (List.mem_filter.mp hmem).2

theorem run_query_sorted (q : SelectQuery) (rows : List (Option Int))
    (ho : q.orderByKey = true) :
    List.Sorted (fun a b => keyLe a b = true) (run_query q rows) := by
  obtain ⟨w, o, l⟩ := q
  cases ho
  cases l <;> simp only [run_query]
  · exact List.sorted_insertionSort _ _
  · exact List.Pairwise.sublist (List.take_sublist _ _)
      (List.sorted_insertionSort _ _)

/-- C6 fails on the code: a bookmark of `0` is *present* in state, yet the
`if start_val:` truthiness test skips the `>=` filter, so rows below the
bookmark (and `NULL` rows) are emitted. -/
theorem c6_counterexample :
    get_records ⟨true, some 0, none, none⟩ [some (-1), none, some 3] =
      [none, some (-1), some 3] ∧
    ¬ (∀ r ∈ get_records ⟨true, some 0, none, none⟩ [some (-1), none, some 3],
        sqlGe r 0 = true) := by
  decide

/-- C6 (amended): with a replication key, rows are always ordered ascending
with `NULLS FIRST`; whenever the bookmark is present *and truthy* (nonzero),
the inclusive `k >= start_val` filter is applied, so every emitted row has a
non-null key `≥ start_val`; a falsy bookmark (absent, or present-but-zero)
applies no lower bound at all. -/
theorem c6_bookmark_filter (rows : List (Option Int)) (v : Int)
    (abort mrc : Option Nat) (hv : v ≠ 0) :
    (∀ r ∈ get_records ⟨true, some v, abort, mrc⟩ rows, sqlGe r v = true) ∧
    List.Sorted (fun a b => keyLe a b = true)
      (get_records ⟨true, some v, abort, mrc⟩ rows) ∧
    (∀ start : Option Int, pyTruthyInt start = false →
      (build_query ⟨true, start, abort, mrc⟩).whereGe = none) := by
  refine ⟨?_, ?_, ?_⟩
  · intro r hr
    have hq : (build_query ⟨true, some v, abort, mrc⟩).whereGe = some v := by
      simp [build_query_whereGe, pyTruthyInt, hv]
    exact mem_run_query _ _ _ hr _ hq
  · exact run_query_sorted _ _ (build_query_orderBy _ _ _)
  · intro s hs
    simp [build_query_whereGe, hs]

/-- Witness for `c6_bookmark_filter` at bookmark `2` over
`[some 3, none, some 1]`. -/
theorem c6_bookmark_filter_witness : sqlGe (some 3) 2 = true :=
  (c6_bookmark_filter [some 3, none, some 1] 2 none none (by decide)).1
    (some 3) (by decide)

/-! ## Claim C7 -/

/-- C7 fails on the code: the added system columns themselves are not
nullable — `_sdc_deleted_at` gets type `["string"]` and `_sdc_lsn` gets
`["integer"]`, so not *every* property's type list contains `"null"`. -/
theorem c7_counterexample :
    (logBasedSchema ⟨[("id", .single "integer")], some ["id"]⟩).properties =
      [("id", .list ["integer", "null"]), ("_sdc_deleted_at", .list ["string"]),
       ("_sdc_lsn", .list ["integer"])] ∧
    ¬ (∀ p ∈ (logBasedSchema ⟨[("id", .single "integer")], some ["id"]⟩).properties,
        typeHasNull p.2 = true) := by
  decide

/-- C7 (amended): the log-based schema nulls every *reflected* column's
type list, never emits `required`, and adds `_sdc_deleted_at` with type
`["string"]` and `_sdc_lsn` with type `["integer"]` (the system columns'
own type lists do not contain `"null"`). -/
theorem c7_log_based_schema (entry : SchemaDict) :
    (logBasedSchema entry).required = none ∧
    dictGet (logBasedSchema entry).properties "_sdc_deleted_at" =
      some (.list ["string"]) ∧
    dictGet (logBasedSchema entry).properties "_sdc_lsn" =
      some (.list ["integer"]) ∧
    (∀ t, typeHasNull (appendNull t) = true) ∧
    (∀ n t, (n, t) ∈ entry.properties → n ≠ "_sdc_deleted_at" → n ≠ "_sdc_lsn" →
      (n, appendNull t) ∈ (logBasedSchema entry).properties) := by
  refine ⟨rfl, ?_, ?_, ?_, ?_⟩
  · simp only [logBasedSchema]
    rw [dictGet_update_other _ _ _ _ (by decide), dictGet_update_self]
  · simp only [logBasedSchema]
    rw [dictGet_update_self]
  · intro t
    cases t <;> simp [typeHasNull, appendNull]
  · intro n t hmem h1 h2
    simp only [logBasedSchema]
    exact mem_dictUpdate_of_mem _ _ _ _ _
      (mem_dictUpdate_of_mem _ _ _ _ _
        (List.mem_map_of_mem _ hmem) h1) h2

/-- Witness for `c7_log_based_schema` on a one-column schema. -/
theorem c7_log_based_schema_witness :
    ("id", appendNull (.single "integer")) ∈
      (logBasedSchema ⟨[("id", .single "integer")], some ["id"]⟩).properties :=
  (c7_log_based_schema ⟨[("id", .single "integer")], some ["id"]⟩).2.2.2.2 "id"
    (.single "integer") (by decide) (by decide) (by decide)

/-! ## Claim C8 -/

theorem foldColumnList_map (cols : List (String × JVal))
    (row : List (String × JVal)) :
    foldColumnList row (cols.map colObj) =
      .ok (cols.foldl (fun d p => dictUpdate d p.1 p.2) row) := by
  induction cols generalizing row with
  | nil => rfl
  | cons c t ih =>
      simp [foldColumnList, colObj, JVal.index, dictGet, ih]

theorem foldl_dictUpdate_disjoint (cols : List (String × JVal))
    (acc : List (String × JVal)) (hn : (cols.map Prod.fst).Nodup)
    (hd : ∀ k ∈ cols.map Prod.fst, dictHas acc k = false) :
    cols.foldl (fun d p => dictUpdate d p.1 p.2) acc = acc ++ cols := by
  induction cols generalizing acc with
  | nil => simp
  | cons c t ih =>
      have hn' : (t.map Prod.fst).Nodup := (List.nodup_cons.mp (by simpa using hn)).2
      have hcn : c.1 ∉ t.map Prod.fst := (List.nodup_cons.mp (by simpa using hn)).1
      simp only [List.foldl_cons]
      rw [dictUpdate_of_not_has _ _ _ (hd c.1 (by simp))]
      rw [ih (acc ++ [(c.1, c.2)]) hn' ?_]
      · simp
      · intro k hk
        have h1 : dictHas acc k = false := hd k (by simp [hk])
        have hne : ¬ c.1 = k := fun he => hcn (he ▸ hk)
        rw [dictHas_append, h1]
        simp [dictHas, dictGet, hne]

/-- Building the final row of an upsert/delete: fold the column entries into
an empty dict, then append the two system columns; with pairwise-distinct
column names that avoid the system names, this is exactly the column list
followed by the system columns. -/
theorem consume_row_build (cols : List (String × JVal))
    (hn : (cols.map Prod.fst).Nodup)
    (h1 : "_sdc_deleted_at" ∉ cols.map Prod.fst)
    (h2 : "_sdc_lsn" ∉ cols.map Prod.fst) (v1 v2 : JVal) :
    dictUpdate (dictUpdate (cols.foldl (fun d p => dictUpdate d p.1 p.2) [])
        "_sdc_deleted_at" v1) "_sdc_lsn" v2 =
      cols ++ [("_sdc_deleted_at", v1), ("_sdc_lsn", v2)] := by
  have hfold : cols.foldl (fun d p => dictUpdate d p.1 p.2) [] = cols := by
    simpa using foldl_dictUpdate_disjoint cols [] hn (by intro k _; rfl)
  rw [hfold, dictUpdate_of_not_has _ _ _ (dictHas_eq_false_of_not_mem _ _ h1),
    dictUpdate_of_not_has]
  · simp
  · rw [dictHas_append, dictHas_eq_false_of_not_mem _ _ h2]
    simp [dictHas, dictGet]

theorem consume_upsert_I (cs : List JVal) (lsn : Nat) (now : DateTime) :
    consume ⟨some (.obj [("action", .str "I"), ("columns", .arr cs)]), lsn⟩ now =
      match foldColumnList [] cs with
      | .ok row => .ok (dictUpdate (dictUpdate row "_sdc_deleted_at" .null)
          "_sdc_lsn" (.num lsn))
      | .error e => .error e := by
  cases hf : foldColumnList [] cs <;>
    simp [consume, JVal.index, dictGet, JVal.isStrIn, foldColumns, hf]

theorem consume_upsert_U (cs : List JVal) (lsn : Nat) (now : DateTime) :
    consume ⟨some (.obj [("action", .str "U"), ("columns", .arr cs)]), lsn⟩ now =
      match foldColumnList [] cs with
      | .ok row => .ok (dictUpdate (dictUpdate row "_sdc_deleted_at" .null)
          "_sdc_lsn" (.num lsn))
      | .error e => .error e := by
  cases hf : foldColumnList [] cs <;>
    simp [consume, JVal.index, dictGet, JVal.isStrIn, foldColumns, hf]

theorem consume_delete_D (cs : List JVal) (lsn : Nat) (now : DateTime) :
    consume ⟨some (.obj [("action", .str "D"), ("identity", .arr cs)]), lsn⟩ now =
      match foldColumnList [] cs with
      | .ok row => .ok (dictUpdate (dictUpdate row "_sdc_deleted_at"
          (.str (strftimeYmdHMSZ now))) "_sdc_lsn" (.num lsn))
      | .error e => .error e := by
  cases hf : foldColumnList [] cs <;>
    simp [consume, JVal.index, dictGet, JVal.isStrIn, foldColumns, hf]

/-- C8: `consume` maps the documented insert payload at LSN 42 to
`{id:7, n:"x", _sdc_deleted_at:null, _sdc_lsn:42}` and the documented delete
payload at LSN 99 to `{id:7, _sdc_deleted_at:<now UTC, YYYY-MM-DDTHH:MM:SSZ>,
_sdc_lsn:99}`; in general (distinct column names avoiding the system names)
an upsert copies every entry of `columns`, a delete copies every entry of
`identity`, and `_sdc_lsn` always equals the message's `data_start`. -/
theorem c8_consume_roundtrip (now : DateTime) (lsn : Nat)
    (cols : List (String × JVal)) :
    (consume ⟨some (.obj [("action", .str "I"),
        ("columns", .arr [colObj ("id", .num 7), colObj ("n", .str "x")])]),
        42⟩ now =
      .ok [("id", .num 7), ("n", .str "x"), ("_sdc_deleted_at", .null),
           ("_sdc_lsn", .num 42)]) ∧
    (consume ⟨some (.obj [("action", .str "D"),
        ("identity", .arr [colObj ("id", .num 7)])]), 99⟩ now =
      .ok [("id", .num 7), ("_sdc_deleted_at", .str (strftimeYmdHMSZ now)),
           ("_sdc_lsn", .num 99)]) ∧
    ((cols.map Prod.fst).Nodup → "_sdc_deleted_at" ∉ cols.map Prod.fst →
      "_sdc_lsn" ∉ cols.map Prod.fst →
      (∀ a ∈ (["I", "U"] : List String),
        consume ⟨some (.obj [("action", .str a),
            ("columns", .arr (cols.map colObj))]), lsn⟩ now =
          .ok (cols ++ [("_sdc_deleted_at", .null), ("_sdc_lsn", .num lsn)])) ∧
      consume ⟨some (.obj [("action", .str "D"),
          ("identity", .arr (cols.map colObj))]), lsn⟩ now =
        .ok (cols ++ [("_sdc_deleted_at", .str (strftimeYmdHMSZ now)),
             ("_sdc_lsn", .num lsn)])) := by
  refine ⟨rfl, rfl, ?_⟩
  intro hn h1 h2
  constructor
  · intro a ha
    have hbuild := consume_row_build cols hn h1 h2 JVal.null (.num lsn)
    rcases List.mem_pair.mp ha with rfl | rfl
    · rw [consume_upsert_I, foldColumnList_map]
      exact congrArg Except.ok hbuild
    · rw [consume_upsert_U, foldColumnList_map]
      exact congrArg Except.ok hbuild
  · rw [consume_delete_D, foldColumnList_map]
    exact congrArg Except.ok
      (consume_row_build cols hn h1 h2 (.str (strftimeYmdHMSZ now)) (.num lsn))

/-- Witness for `c8_consume_roundtrip`: a one-column update at LSN 7. -/
theorem c8_consume_roundtrip_witness :
    consume ⟨some (.obj [("action", JVal.str "U"),
        ("columns", .arr ([(("a" : String), JVal.num 1)].map colObj))]), 7⟩
      ⟨⟨2026, 1, 1⟩, 0, 0, 0, none⟩ =
      .ok [("a", JVal.num 1), ("_sdc_deleted_at", .null),
           ("_sdc_lsn", JVal.num 7)] :=
  ((c8_consume_roundtrip ⟨⟨2026, 1, 1⟩, 0, 0, 0, none⟩ 7
      [("a", JVal.num 1)]).2.2 (by decide) (by decide) (by decide)).1 "U"
    (by decide)

/-! ## Claim C9 -/

theorem isStrIn_sublists_false (v : JVal)
    (h : v.isStrIn ["I", "U", "D", "T", "B", "C"] = false) :
    v.isStrIn ["I", "U"] = false ∧ v.isStrIn ["D"] = false ∧
    v.isStrIn ["T"] = false ∧ v.isStrIn ["B", "C"] = false := by
  cases v <;> simp_all [JVal.isStrIn]

/-- C9: a payload that fails JSON parsing yields the empty map and is not
emitted; actions `T`, `B`, `C` yield the empty map and are not emitted; any
action outside `{I, U, D, T, B, C}` raises a `RuntimeError` carrying the
offending payload. -/
theorem c9_consume_error_policy (now : DateTime) (lsn : Nat)
    (p : List (String × JVal)) (av : JVal) :
    (consume ⟨none, lsn⟩ now = .ok [] ∧
      rowEmitted (consume ⟨none, lsn⟩ now) = false) ∧
    (∀ s ∈ (["T", "B", "C"] : List String), dictGet p "action" = some (.str s) →
      consume ⟨some (.obj p), lsn⟩ now = .ok [] ∧
      rowEmitted (consume ⟨some (.obj p), lsn⟩ now) = false) ∧
    (dictGet p "action" = some av →
      av.isStrIn ["I", "U", "D", "T", "B", "C"] = false →
      consume ⟨some (.obj p), lsn⟩ now = .error (.runtimeError (.obj p))) := by
  refine ⟨⟨rfl, rfl⟩, ?_, ?_⟩
  · intro s hs hp
    have : consume ⟨some (.obj p), lsn⟩ now = .ok [] := by
      simp only [List.mem_cons, List.not_mem_nil, or_false] at hs
      rcases hs with rfl | rfl | rfl <;>
        simp [consume, JVal.index, hp, JVal.isStrIn]
    exact ⟨this, by rw [this]; rfl⟩
  · intro hp hav
    obtain ⟨h12, h3, h4, h5⟩ := isStrIn_sublists_false av hav
    simp [consume, JVal.index, hp, h12, h3, h4, h5]

/-- Witness for `c9_consume_error_policy`: unknown action `"Z"` is fatal. -/
theorem c9_consume_error_policy_witness :
    consume ⟨some (.obj [("action", JVal.str "Z")]), 5⟩
      ⟨⟨2026, 1, 1⟩, 0, 0, 0, none⟩ =
      .error (.runtimeError (.obj [("action", JVal.str "Z")])) :=
  (c9_consume_error_policy ⟨⟨2026, 1, 1⟩, 0, 0, 0, none⟩ 5
    [("action", JVal.str "Z")] (JVal.str "Z")).2.2 rfl rfl

/-! ## Claim C10 -/

/-- C10: `dates_as_string` is mandatory — a non-null config without the key
makes both connector construction and `sdk_typing_object` fail with a
`KeyError` on `"dates_as_string"` instead of defaulting to false. -/
theorem c10_dates_as_string_required (cfg : Config) (tn : String)
    (h : dictGet cfg "dates_as_string" = none) :
    pgConnectorInit (some cfg) = .error (.keyError "dates_as_string") ∧
    sdk_typing_object cfg tn = .error (.keyError "dates_as_string") ∧
    to_jsonschema_type cfg (.name tn) = .error (.keyError "dates_as_string") := by
  refine ⟨?_, ?_, ?_⟩ <;>
    simp [pgConnectorInit, sdk_typing_object, to_jsonschema_type, h]

/-- Witness for `c10_dates_as_string_required` on a config holding only a
host. -/
theorem c10_dates_as_string_required_witness :
    pgConnectorInit (some [("host", JVal.str "localhost")]) =
      .error (.keyError "dates_as_string") :=
  (c10_dates_as_string_required [("host", JVal.str "localhost")] "date" rfl).1

end TapPostgres
